import Mathlib

/-!
Verification of the MTYoutubeAutoPost upload-lifecycle core.

Shallow embedding of the repository source:
- app/core/retry_manager.py   (RetryManager)
- app/services/api_key_manager.py (APIKeyManager)
- app/services/youtube_api.py (quota rotation and retry wiring)
- app/workers/worker_manager.py (WorkerManager: queue, counters, completion signal)
- app/workers/upload_worker.py (pre-task delay loop)
- app/core/state_manager.py and app/core/orchestrator.py (crash recovery)

Machine randomness (random.uniform, random.randint, uuid4) is modelled by
explicit parameters ranging over the values the library can return; wall-clock
datetimes become natural-number timestamps; the SQLite tables become lists of
rows in insertion order.
-/


/-- Substring test on character lists: Python `pat in hay`. -/
def containsSub (hay pat : List Char) : Bool :=
  hay.tails.any (fun t => pat.isPrefixOf t)

namespace RetryManager

/-- Python `str.lower()` applied to a message (per-character lowering). -/
def strLower (s : String) : List Char :=
  s.toList.map Char.toLower

/-- The retryable pattern list of `RetryManager.is_retryable_error`. -/
def retryablePatterns : List (List Char) :=
  ["timeout", "connection", "network", "rate limit", "too many requests",
   "quota exceeded", "503", "504", "429", "temporarily unavailable"].map String.toList

/-- The non-retryable pattern list of `RetryManager.is_retryable_error`. -/
def nonRetryablePatterns : List (List Char) :=
  ["invalid", "not found", "unauthorized", "403", "404", "401",
   "permission denied"].map String.toList

/-- Python `for pattern in patterns: if pattern in s: return hit` — first match wins. -/
def matchesAny (s : List Char) (pats : List (List Char)) : Bool :=
  pats.any (fun p => containsSub s p)

/-- Source `RetryManager.is_retryable_error`: lowercase the message, scan the
retryable list first, then the non-retryable list, default `true`. -/
def is_retryable_error (error : String) : Bool :=
  if matchesAny (strLower error) retryablePatterns then true
  else if matchesAny (strLower error) nonRetryablePatterns then false
  else true

/-- Python `int()` on a rational: truncation toward zero. -/
def pyTrunc (q : ℚ) : ℤ :=
  if 0 ≤ q then q.floor else -((-q).floor)

/-- Source `RetryManager.get_retry_delay`: exponential backoff `base_delay * 2^n`,
plus a jitter offset drawn from `random.uniform(-0.2*delay, 0.2*delay)`
(here an explicit parameter `j`), capped at 600 seconds, truncated by `int()`. -/
def get_retry_delay (retry_count : ℕ) (base_delay : ℚ) (j : ℚ) : ℤ :=
  let delay : ℚ := base_delay * 2 ^ retry_count
  let delay := delay + j
  let delay := if delay ≤ 600 then delay else 600
  pyTrunc delay

end RetryManager

namespace APIKeyManager

/-- The rotation-relevant state of `APIKeyManager`: how many credential sets
were loaded (`_keys`), the current index, and the exhaustion dict
`index -> exhausted timestamp` (an association list). -/
structure State where
  numKeys : ℕ
  currentIndex : ℕ
  exhaustedKeys : List (ℕ × ℕ)

/-- Python `index in self._exhausted_keys` (dict membership). -/
def isExhausted (ex : List (ℕ × ℕ)) (i : ℕ) : Bool :=
  (ex.lookup i).isSome

/-- Python `self._exhausted_keys[i] = t` (dict assignment). -/
def setExhausted (ex : List (ℕ × ℕ)) (i t : ℕ) : List (ℕ × ℕ) :=
  (i, t) :: ex.filter (fun e => e.1 != i)

/-- Source `_cleanup_exhausted`: drop every entry whose timestamp precedes the last
quota-reset boundary (`exhausted_time < last_reset`). -/
def cleanupExhausted (ex : List (ℕ × ℕ)) (lastReset : ℕ) : List (ℕ × ℕ) :=
  ex.filter (fun e => decide (lastReset ≤ e.2))

/-- Source `_switch_to_next_available`: cleanup, then scan offsets `i = 0..n-1`
taking `next_index = (current + 1 + i) % n`, adopting the first
non-exhausted index; returns whether a switch happened. -/
def switch_to_next_available (m : State) (lastReset : ℕ) : State × Bool :=
  let cleaned := cleanupExhausted m.exhaustedKeys lastReset
  match (List.range m.numKeys).find?
      (fun i => !isExhausted cleaned ((m.currentIndex + 1 + i) % m.numKeys)) with
  | some i =>
      ({ m with exhaustedKeys := cleaned,
                currentIndex := (m.currentIndex + 1 + i) % m.numKeys }, true)
  | none => ({ m with exhaustedKeys := cleaned }, false)

/-- Source `mark_quota_exceeded`: record the current index as exhausted at time
`now`, then try to switch to the next available key. -/
def mark_quota_exceeded (m : State) (now lastReset : ℕ) : State × Bool :=
  switch_to_next_available
    { m with exhaustedKeys := setExhausted m.exhaustedKeys m.currentIndex now } lastReset

/-- Source `reset_all`: clear the exhaustion dict and return to index 0. -/
def reset_all (m : State) : State :=
  { m with exhaustedKeys := [], currentIndex := 0 }

end APIKeyManager

namespace YouTubeAPIService

/-- Outcome of one network attempt of `videos().insert`/`videos().update`:
success, an `HttpError` with a status and a response body, or any other
exception. -/
inductive ApiOutcome where
  | success
  | httpError (status : ℕ) (content : String)
  | otherError
deriving DecidableEq

/-- Source `switch_to_next_key`: mark the current key quota-exceeded; on a
successful rotation, re-authenticate (outcome `authOk`), else report
failure. -/
def switch_to_next_key (m : APIKeyManager.State) (now lastReset : ℕ)
    (authOk : Bool) : APIKeyManager.State × Bool :=
  let r := APIKeyManager.mark_quota_exceeded m now lastReset
  if r.2 then (r.1, authOk) else (r.1, false)

/-- Source `_handle_quota_error`: switch keys exactly when the error is an HTTP 403
whose body contains the substring `quotaExceeded`. -/
def handle_quota_error (m : APIKeyManager.State) (status : ℕ) (content : String)
    (now lastReset : ℕ) (authOk : Bool) : APIKeyManager.State × Bool :=
  if status == 403 && containsSub content.toList ("quotaExceeded".toList) then
    switch_to_next_key m now lastReset authOk
  else (m, false)

/-- The error-handling control flow of `upload_video` (identical in
`update_video`): each call consumes the next network outcome; an
`HttpError` passing `_handle_quota_error` triggers a recursive retry of the
whole operation with the rotated key. Returns the final rotator state,
whether the operation succeeded, and how many attempts were made. -/
def upload_video (m : APIKeyManager.State) (now lastReset : ℕ) (authOk : Bool) :
    List ApiOutcome → APIKeyManager.State × Bool × ℕ
  | [] => (m, false, 0)
  | .success :: _ => (m, true, 1)
  | .otherError :: _ => (m, false, 1)
  | .httpError st content :: rest =>
      let r := handle_quota_error m st content now lastReset authOk
      if r.2 then
        let k := upload_video r.1 now lastReset authOk rest
        (k.1, k.2.1, k.2.2 + 1)
      else (r.1, false, 1)

/-- A quota-exhaustion response: HTTP 403 with a quotaExceeded body. -/
def quotaOutcome : ApiOutcome :=
  .httpError 403 ("HttpError 403: quotaExceeded for quota metric")

end YouTubeAPIService

namespace WorkerManager

/-- The counters of `WorkerManager` observable by the completion check:
`_total_tasks`, `_completed_count`, `_failed_count`, the queue size, plus
how many times the `all_tasks_completed` signal has been emitted. -/
structure PoolState where
  total : ℕ
  completed : ℕ
  failed : ℕ
  queued : ℕ
  emitted : ℕ
deriving DecidableEq

/-- State after `n` `add_task` calls followed by `start_workers()`:
every task queued, no outcomes, no emission yet. -/
def initState (n : ℕ) : PoolState :=
  ⟨n, 0, 0, n, 0⟩

/-- Events of a run: a worker fetches a queued task
(`_distribute_tasks` + `get_nowait`), or an in-flight task reaches
`_on_task_completed` / `_on_task_failed`. -/
inductive PoolEvent where
  | fetch
  | complete
  | fail
deriving DecidableEq

/-- Event preconditions: fetching needs a queued task; a completion or
failure callback needs an in-flight task (fetched but not yet terminal). -/
def enabled (s : PoolState) : PoolEvent → Bool
  | .fetch => decide (0 < s.queued)
  | .complete => decide (s.completed + s.failed + s.queued < s.total)
  | .fail => decide (s.completed + s.failed + s.queued < s.total)

/-- One step. The callback arms mirror `_on_task_completed` /
`_on_task_failed`: increment the counter, then emit `all_tasks_completed`
iff `remaining_count <= 0 and self._task_queue.empty()`. -/
def step (s : PoolState) : PoolEvent → PoolState
  | .fetch => { s with queued := s.queued - 1 }
  | .complete =>
      let s1 := { s with completed := s.completed + 1 }
      if s1.total ≤ s1.completed + s1.failed ∧ s1.queued = 0 then
        { s1 with emitted := s1.emitted + 1 }
      else s1
  | .fail =>
      let s1 := { s with failed := s.failed + 1 }
      if s1.total ≤ s1.completed + s1.failed ∧ s1.queued = 0 then
        { s1 with emitted := s1.emitted + 1 }
      else s1

/-- Run a sequence of events. -/
def runPool (s : PoolState) : List PoolEvent → PoolState
  | [] => s
  | e :: es => runPool (step s e) es

/-- A run is valid when every event is enabled where it occurs. -/
def validFrom (s : PoolState) : List PoolEvent → Bool
  | [] => true
  | e :: es => enabled s e && validFrom (step s e) es

/-- Reachability invariant: counters never overshoot the total, and the
signal has been emitted exactly once iff every submitted task is terminal
(and at least one task exists). -/
def PoolInv (n : ℕ) (s : PoolState) : Prop :=
  s.total = n ∧ s.completed + s.failed + s.queued ≤ n ∧
    s.emitted = (if s.completed + s.failed = n ∧ 0 < n then 1 else 0)

end WorkerManager

namespace WorkerManager

/-- The spawn-relevant fields of `WorkerManager`: `_is_running`, the
`_workers` list (by worker id) and `_worker_count`. -/
structure MState where
  isRunning : Bool
  workers : List ℕ
  workerCount : ℕ
deriving DecidableEq

/-- Setter of the `worker_count` property:
`self._worker_count = max(1, min(5, value))`. -/
def set_worker_count (m : MState) (value : ℤ) : MState :=
  { m with workerCount := (max 1 (min 5 value)).toNat }

/-- Source `start_workers(count=None)`: no-op with a warning when already running;
otherwise optionally re-clamp the count (Python `if count:` skips `None`
and `0`), set the running flag, and append one worker per
`range(self._worker_count)` with ids `i + 1`. -/
def start_workers (m : MState) (count : Option ℤ) : MState :=
  if m.isRunning then m
  else
    let m1 := match count with
      | some c => if c ≠ 0 then set_worker_count m c else m
      | none => m
    { m1 with isRunning := true,
              workers := m1.workers ++ (List.range m1.workerCount).map (fun i => i + 1) }

end WorkerManager

namespace UploadWorker

/-- The pre-task delay loop of `_process_task`, one recursion step per
half-second slice (`range(delay * 2)`). Each iteration first checks
`self._running` and returns without dispatching when stop was observed;
slice `pauseSlice` models the slice during which the worker is paused and
stop is requested while it waits in the inner pause loop (the inner loop
exits because `_running` is false, the slice finishes, and the `for` loop
continues). Returns `true` when control reaches the dispatch code after
the loop, i.e. the network call is started. -/
def delaySlices (pauseSlice : ℕ) : ℕ → ℕ → Bool → Bool
  | 0, _, _ => true
  | k + 1, i, stopped =>
      if stopped then false
      else delaySlices pauseSlice k (i + 1) (stopped || (i == pauseSlice))

/-- Whether `_process_task` reaches its network call when the worker is
paused during slice `pauseSlice` of the random `delay` and stop is
requested during that pause. -/
def processTaskDispatches (delay pauseSlice : ℕ) : Bool :=
  delaySlices pauseSlice (delay * 2) 0 false

end UploadWorker

namespace StateManager

/-- A `products` row (the columns read by crash recovery). -/
structure ProductRow where
  id : ℕ
  prod_code : String
  prod_name : String
  prod_short_descr : Option String
  prod_long_descr : Option String
deriving DecidableEq

/-- A `videos` row (the columns read by crash recovery). -/
structure VideoRow where
  product_id : ℕ
  filename : String
  file_path : String
  episode : ℕ
  status : String
  retry_count : Option ℕ
  error_message : Option String
deriving DecidableEq

/-- An `upload_sessions` row. `started_at` is an ISO timestamp string,
whose SQLite ordering is chronological; it is modelled as a natural. -/
structure SessionRow where
  session_id : String
  status : String
  started_at : ℕ
deriving DecidableEq

/-- The SQLite database: rows in insertion order. -/
structure Database where
  products : List ProductRow
  videos : List VideoRow
  sessions : List SessionRow
deriving DecidableEq

/-- The task dict built by `get_pending_tasks` for each recovered video. -/
structure TaskDict where
  prod_code : String
  prod_name : String
  prod_short_descr : String
  prod_long_descr : String
  filename : String
  file_path : String
  episode : ℕ
  status : String
  retry_count : ℕ
  error_message : Option String
deriving DecidableEq

/-- Query `Video.status.in_(['pending', 'uploading', 'failed'])`. -/
def pendingStatus (st : String) : Bool :=
  st == "pending" || st == "uploading" || st == "failed"

/-- The dict appended for a video and its product
(`or ''` / `or 0` defaulting included). -/
def rowToDict (p : ProductRow) (v : VideoRow) : TaskDict :=
  { prod_code := p.prod_code, prod_name := p.prod_name,
    prod_short_descr := p.prod_short_descr.getD (""),
    prod_long_descr := p.prod_long_descr.getD (""),
    filename := v.filename, file_path := v.file_path, episode := v.episode,
    status := v.status, retry_count := v.retry_count.getD 0,
    error_message := v.error_message }

/-- Source `StateManager.get_pending_tasks(session_id=None)`: select every Video
whose status is pending/uploading/failed — the query never filters on the
`session_id` argument — and join each with its Product (videos whose
product lookup fails are skipped). -/
def get_pending_tasks (db : Database) (session_id : Option String) : List TaskDict :=
  (db.videos.filter (fun v => pendingStatus v.status)).filterMap
    (fun v => (db.products.find? (fun p => p.id == v.product_id)).map
      (fun p => rowToDict p v))

/-- Query `UploadSession.status.in_(['pending', 'running', 'paused'])`. -/
def resumableStatus (st : String) : Bool :=
  st == "pending" || st == "running" || st == "paused"

/-- Query `order_by(started_at.desc()).first()` over a candidate list. -/
def latestSession : List SessionRow → Option SessionRow
  | [] => none
  | s :: rest =>
      match latestSession rest with
      | none => some s
      | some t => if s.started_at < t.started_at then some t else some s

/-- Source `StateManager.get_resumable_session`: the most recently started session
still in a non-terminal status, if any. -/
def get_resumable_session (db : Database) : Option String :=
  (latestSession (db.sessions.filter (fun s => resumableStatus s.status))).map
    (fun s => s.session_id)

end StateManager

namespace Orchestrator

/-- The fields of `VideoTask` populated by `resume_from_crash`. -/
structure VideoTask where
  task_id : String
  session_id : String
  prod_code : String
  prod_name : String
  prod_short_descr : String
  prod_long_descr : String
  filename : String
  file_path : String
  episode : ℕ
  status : String
  retry_count : ℕ
deriving DecidableEq

/-- The orchestrator state touched by crash recovery: `_session_id`,
`_tasks`, `_is_running`, `_is_paused`. -/
structure OState where
  session_id : Option String
  tasks : List VideoTask
  is_running : Bool
  is_paused : Bool
deriving DecidableEq

/-- One rebuilt `VideoTask`: a fresh uuid4 task id, the adopted session id,
the persisted product/video fields, status reset to pending and the stored
retry count preserved. -/
def rebuildTask (sid freshId : String) (td : StateManager.TaskDict) : VideoTask :=
  { task_id := freshId, session_id := sid,
    prod_code := td.prod_code, prod_name := td.prod_name,
    prod_short_descr := td.prod_short_descr, prod_long_descr := td.prod_long_descr,
    filename := td.filename, file_path := td.file_path, episode := td.episode,
    status := "pending", retry_count := td.retry_count }

/-- Source `Orchestrator.resume_from_crash`: look up a resumable session; if none,
or if it has no pending tasks, return failure leaving the state unchanged;
otherwise adopt the session id, rebuild the task list (uuid4 ids supplied
by `freshIds`) and return success. It never touches `_is_running`. -/
def resume_from_crash (db : StateManager.Database) (o : OState)
    (freshIds : ℕ → String) : OState × Bool :=
  match StateManager.get_resumable_session db with
  | none => (o, false)
  | some sid =>
      let pending := StateManager.get_pending_tasks db (some sid)
      if pending.isEmpty then (o, false)
      else
        ({ o with session_id := some sid,
                  tasks := pending.enum.map (fun e => rebuildTask sid (freshIds e.1) e.2) },
         true)

end Orchestrator

/-- The Batteries `Rat.floor` agrees with the mathematical floor `⌊ ⌋`. -/
theorem ratFloor_eq_intFloor (q : ℚ) : q.floor = ⌊q⌋ :=
  (Rat.floor_def' q).trans Rat.floor_def.symm

/-- On nonnegative arguments, Python `int()` truncation is the floor. -/
theorem pyTrunc_eq_floor (q : ℚ) (h : 0 ≤ q) : RetryManager.pyTrunc q = ⌊q⌋ := by
  unfold RetryManager.pyTrunc
  rw [if_pos h, ratFloor_eq_intFloor]

/-- C7: `is_retryable_error` lowercases the message, checks the retryable
patterns before the non-retryable ones with first match winning, and
defaults to retryable when neither list matches; hence a message containing
both "timeout" and "unauthorized" is classified retryable, and matching is
case-insensitive. -/
theorem C7_is_retryable_error_priority :
    (∀ msg : String,
        RetryManager.is_retryable_error msg =
          (RetryManager.matchesAny (RetryManager.strLower msg) RetryManager.retryablePatterns
            || !RetryManager.matchesAny (RetryManager.strLower msg)
                  RetryManager.nonRetryablePatterns))
    ∧ RetryManager.matchesAny (RetryManager.strLower ("Connection timeout: unauthorized"))
        RetryManager.retryablePatterns = true
    ∧ RetryManager.matchesAny (RetryManager.strLower ("Connection timeout: unauthorized"))
        RetryManager.nonRetryablePatterns = true
    ∧ RetryManager.is_retryable_error ("Connection timeout: unauthorized") = true
    ∧ RetryManager.is_retryable_error ("TIMEOUT") = true
    ∧ RetryManager.is_retryable_error ("plain mystery failure") = true
    ∧ RetryManager.is_retryable_error ("404 not found") = false := by
  refine ⟨?_, by decide, by decide, by decide, by decide, by decide, by decide⟩
  intro msg
  unfold RetryManager.is_retryable_error
  cases h1 : RetryManager.matchesAny (RetryManager.strLower msg)
      RetryManager.retryablePatterns <;>
    cases h2 : RetryManager.matchesAny (RetryManager.strLower msg)
        RetryManager.nonRetryablePatterns <;>
      simp [h1, h2]

/-- C8: for every jitter offset within ±20% of the computed backoff,
`get_retry_delay` with base delay 30 lies in [24,36] for retry 0, in
[192,288] for retry 3, and equals exactly 600 (the clamp) for retry 10. -/
theorem C8_get_retry_delay_bounds :
    (∀ j : ℚ, |j| ≤ 30 * 2 ^ (0 : ℕ) * (1 / 5) →
      24 ≤ RetryManager.get_retry_delay 0 30 j ∧ RetryManager.get_retry_delay 0 30 j ≤ 36)
    ∧ (∀ j : ℚ, |j| ≤ 30 * 2 ^ (3 : ℕ) * (1 / 5) →
      192 ≤ RetryManager.get_retry_delay 3 30 j ∧ RetryManager.get_retry_delay 3 30 j ≤ 288)
    ∧ (∀ j : ℚ, |j| ≤ 30 * 2 ^ (10 : ℕ) * (1 / 5) →
      RetryManager.get_retry_delay 10 30 j = 600) := by
  refine ⟨?_, ?_, ?_⟩
  · intro j hj
    rw [abs_le] at hj
    norm_num at hj
    unfold RetryManager.get_retry_delay
    norm_num
    rw [if_pos (by linarith), pyTrunc_eq_floor _ (by linarith)]
    constructor
    · exact Int.le_floor.mpr (by push_cast; linarith)
    · calc ⌊30 + j⌋ ≤ ⌊(36 : ℚ)⌋ := Int.floor_le_floor (by linarith)
        _ = 36 := by norm_num
  · intro j hj
    rw [abs_le] at hj
    norm_num at hj
    unfold RetryManager.get_retry_delay
    norm_num
    rw [if_pos (by linarith), pyTrunc_eq_floor _ (by linarith)]
    constructor
    · exact Int.le_floor.mpr (by push_cast; linarith)
    · calc ⌊240 + j⌋ ≤ ⌊(288 : ℚ)⌋ := Int.floor_le_floor (by linarith)
        _ = 288 := by norm_num
  · intro j hj
    rw [abs_le] at hj
    norm_num at hj
    unfold RetryManager.get_retry_delay
    norm_num
    rw [if_neg (by linarith), pyTrunc_eq_floor _ (by norm_num)]
    norm_num

/-- Witness for C8 at concrete jitter offsets. -/
theorem C8_witness :
    (24 ≤ RetryManager.get_retry_delay 0 30 0 ∧ RetryManager.get_retry_delay 0 30 0 ≤ 36)
    ∧ RetryManager.get_retry_delay 10 30 (-6144) = 600 :=
  ⟨C8_get_retry_delay_bounds.1 0 (by norm_num),
   C8_get_retry_delay_bounds.2.2 (-6144) (by norm_num)⟩

/-- Marking the current index keeps it exhausted through the cleanup, since
its timestamp `now` is not before the reset boundary. -/
theorem isExhausted_after_mark (ex : List (ℕ × ℕ)) (c now lastReset : ℕ)
    (h : lastReset ≤ now) :
    APIKeyManager.isExhausted
      (APIKeyManager.cleanupExhausted (APIKeyManager.setExhausted ex c now) lastReset) c
      = true := by
  simp [APIKeyManager.isExhausted, APIKeyManager.cleanupExhausted,
    APIKeyManager.setExhausted, List.filter_cons, h, List.lookup]

/-- Every index below `n` is hit by the round-robin scan starting after `c`. -/
theorem roundRobin_covers (n c j : ℕ) (hj : j < n) :
    ∃ i, i < n ∧ (c + 1 + i) % n = j := by
  have hn : 0 < n := Nat.lt_of_le_of_lt (Nat.zero_le j) hj
  have ha : (c + 1) % n < n := Nat.mod_lt _ hn
  refine ⟨(n + j - (c + 1) % n) % n, Nat.mod_lt _ hn, ?_⟩
  have h2 : (c + 1 + (n + j - (c + 1) % n) % n) % n
      = ((c + 1) % n + (n + j - (c + 1) % n) % n) % n := by
    conv_lhs => rw [Nat.add_mod]
    rw [Nat.mod_mod_of_dvd _ dvd_rfl]
  have h3 : ((c + 1) % n + (n + j - (c + 1) % n) % n) % n
      = ((c + 1) % n + (n + j - (c + 1) % n)) % n := by
    conv_lhs => rw [Nat.add_mod]
    conv_rhs => rw [Nat.add_mod]
    rw [Nat.mod_mod_of_dvd _ dvd_rfl, Nat.mod_mod_of_dvd _ dvd_rfl]
  have h4 : (c + 1) % n + (n + j - (c + 1) % n) = n + j := by omega
  rw [h2, h3, h4, Nat.add_mod_left, Nat.mod_eq_of_lt hj]

namespace APIKeyManager

theorem switch_fst_exhaustedKeys (m : State) (lr : ℕ) :
    (switch_to_next_available m lr).1.exhaustedKeys = cleanupExhausted m.exhaustedKeys lr := by
  simp only [switch_to_next_available]
  split <;> rfl

theorem switch_fst_numKeys (m : State) (lr : ℕ) :
    (switch_to_next_available m lr).1.numKeys = m.numKeys := by
  simp only [switch_to_next_available]
  split <;> rfl

theorem switch_false_currentIndex (m : State) (lr : ℕ)
    (h : (switch_to_next_available m lr).2 = false) :
    (switch_to_next_available m lr).1.currentIndex = m.currentIndex := by
  simp only [switch_to_next_available] at h ⊢
  split at h
  · simp at h
  · rfl

theorem switch_true_currentIndex (m : State) (lr : ℕ)
    (h : (switch_to_next_available m lr).2 = true) :
    isExhausted (cleanupExhausted m.exhaustedKeys lr)
        (switch_to_next_available m lr).1.currentIndex = false
    ∧ ∃ i, i < m.numKeys ∧
        (switch_to_next_available m lr).1.currentIndex
          = (m.currentIndex + 1 + i) % m.numKeys := by
  simp only [switch_to_next_available] at h ⊢
  split at h
  case h_1 i hf =>
    have hp := List.find?_some hf
    have hmem := List.mem_range.mp (List.mem_of_find?_eq_some hf)
    simp only [Bool.not_eq_true'] at hp
    exact ⟨by simpa using hp, i, hmem, rfl⟩
  case h_2 => simp at h

theorem switch_snd_iff (m : State) (lr : ℕ) :
    (switch_to_next_available m lr).2 = true ↔
      ∃ j, j < m.numKeys ∧
        isExhausted (cleanupExhausted m.exhaustedKeys lr) j = false := by
  simp only [switch_to_next_available]
  split
  case h_1 i hf =>
    have hp := List.find?_some hf
    have hmem := List.mem_range.mp (List.mem_of_find?_eq_some hf)
    simp only [Bool.not_eq_true'] at hp
    refine ⟨fun _ => ⟨(m.currentIndex + 1 + i) % m.numKeys, ?_, hp⟩, fun _ => rfl⟩
    exact Nat.mod_lt _ (Nat.lt_of_le_of_lt (Nat.zero_le i) hmem)
  case h_2 hf =>
    constructor
    · intro h
      simp at h
    · rintro ⟨j, hj, hex⟩
      obtain ⟨i, hi, hij⟩ := roundRobin_covers m.numKeys m.currentIndex j hj
      have : (List.range m.numKeys).find?
          (fun i => !isExhausted (cleanupExhausted m.exhaustedKeys lr)
            ((m.currentIndex + 1 + i) % m.numKeys)) ≠ none := by
        rw [← Option.isSome_iff_ne_none, List.find?_isSome]
        exact ⟨i, List.mem_range.mpr hi, by rw [hij]; simp [hex]⟩
      exact absurd hf this

end APIKeyManager

/-- C6: `mark_quota_exceeded` records the current index as exhausted and
advances round-robin to the next non-exhausted index just after the current
one, returning true iff a switch succeeded (false only when every set is
exhausted); with one credential set it returns false leaving the index
unchanged; with 3 fresh sets two consecutive calls advance the index by 1
and then by 1 again. -/
theorem C6_mark_quota_exceeded_rotation :
    (∀ (m : APIKeyManager.State) (now lastReset : ℕ), lastReset ≤ now →
      APIKeyManager.isExhausted
          (APIKeyManager.mark_quota_exceeded m now lastReset).1.exhaustedKeys
          m.currentIndex = true
      ∧ ((APIKeyManager.mark_quota_exceeded m now lastReset).2 = false →
          (APIKeyManager.mark_quota_exceeded m now lastReset).1.currentIndex
            = m.currentIndex)
      ∧ ((APIKeyManager.mark_quota_exceeded m now lastReset).2 = true →
          APIKeyManager.isExhausted
              (APIKeyManager.mark_quota_exceeded m now lastReset).1.exhaustedKeys
              (APIKeyManager.mark_quota_exceeded m now lastReset).1.currentIndex = false
          ∧ ∃ i, i < m.numKeys ∧
              (APIKeyManager.mark_quota_exceeded m now lastReset).1.currentIndex
                = (m.currentIndex + 1 + i) % m.numKeys)
      ∧ ((APIKeyManager.mark_quota_exceeded m now lastReset).2 = true ↔
          ∃ j, j < m.numKeys ∧
            APIKeyManager.isExhausted
              (APIKeyManager.mark_quota_exceeded m now lastReset).1.exhaustedKeys j
              = false))
    ∧ (∀ (ex : List (ℕ × ℕ)) (now lastReset : ℕ), lastReset ≤ now →
        (APIKeyManager.mark_quota_exceeded ⟨1, 0, ex⟩ now lastReset).2 = false
        ∧ (APIKeyManager.mark_quota_exceeded ⟨1, 0, ex⟩ now lastReset).1.currentIndex = 0)
    ∧ (∀ (c nowA lrA nowB lrB : ℕ), c < 3 → lrA ≤ nowA → lrB ≤ nowA → lrB ≤ nowB →
        (APIKeyManager.mark_quota_exceeded ⟨3, c, []⟩ nowA lrA).2 = true
        ∧ (APIKeyManager.mark_quota_exceeded ⟨3, c, []⟩ nowA lrA).1.currentIndex
            = (c + 1) % 3
        ∧ (APIKeyManager.mark_quota_exceeded
              (APIKeyManager.mark_quota_exceeded ⟨3, c, []⟩ nowA lrA).1 nowB lrB).2 = true
        ∧ (APIKeyManager.mark_quota_exceeded
              (APIKeyManager.mark_quota_exceeded ⟨3, c, []⟩ nowA lrA).1 nowB lrB).1.currentIndex
            = (c + 2) % 3) := by
  refine ⟨?_, ?_, ?_⟩
  · intro m now lastReset h
    refine ⟨?_, ?_, ?_, ?_⟩
    · rw [show (APIKeyManager.mark_quota_exceeded m now lastReset).1
          = (APIKeyManager.switch_to_next_available
              { m with exhaustedKeys :=
                  APIKeyManager.setExhausted m.exhaustedKeys m.currentIndex now }
              lastReset).1 from rfl,
        APIKeyManager.switch_fst_exhaustedKeys]
      exact isExhausted_after_mark m.exhaustedKeys m.currentIndex now lastReset h
    · exact APIKeyManager.switch_false_currentIndex _ lastReset
    · intro ht
      obtain ⟨h1, i, hi, h2⟩ := APIKeyManager.switch_true_currentIndex
        { m with exhaustedKeys :=
            APIKeyManager.setExhausted m.exhaustedKeys m.currentIndex now } lastReset ht
      refine ⟨?_, i, hi, h2⟩
      rw [show (APIKeyManager.mark_quota_exceeded m now lastReset).1
          = (APIKeyManager.switch_to_next_available
              { m with exhaustedKeys :=
                  APIKeyManager.setExhausted m.exhaustedKeys m.currentIndex now }
              lastReset).1 from rfl,
        APIKeyManager.switch_fst_exhaustedKeys]
      exact h1
    · rw [show (APIKeyManager.mark_quota_exceeded m now lastReset).1
          = (APIKeyManager.switch_to_next_available
              { m with exhaustedKeys :=
                  APIKeyManager.setExhausted m.exhaustedKeys m.currentIndex now }
              lastReset).1 from rfl,
        APIKeyManager.switch_fst_exhaustedKeys]
      exact APIKeyManager.switch_snd_iff _ lastReset
  · intro ex now lastReset h
    have hex := isExhausted_after_mark ex 0 now lastReset h
    constructor <;>
      simp [APIKeyManager.mark_quota_exceeded, APIKeyManager.switch_to_next_available,
        show List.range 1 = [0] from rfl, List.find?, hex]
  · intro c nowA lrA nowB lrB hc h1 h2 h3
    interval_cases c <;>
      simp_all [APIKeyManager.mark_quota_exceeded, APIKeyManager.switch_to_next_available,
        APIKeyManager.setExhausted, APIKeyManager.cleanupExhausted, APIKeyManager.isExhausted,
        List.filter, List.lookup, List.find?, show List.range 3 = [0, 1, 2] from rfl]

/-- Witness for C6 at concrete states and timestamps. -/
theorem C6_witness :
    (APIKeyManager.mark_quota_exceeded ⟨1, 0, []⟩ 5 3).2 = false
    ∧ (APIKeyManager.mark_quota_exceeded ⟨1, 0, []⟩ 5 3).1.currentIndex = 0
    ∧ (APIKeyManager.mark_quota_exceeded ⟨3, 0, []⟩ 5 3).1.currentIndex = (0 + 1) % 3
    ∧ (APIKeyManager.mark_quota_exceeded
          (APIKeyManager.mark_quota_exceeded ⟨3, 0, []⟩ 5 3).1 7 3).1.currentIndex
        = (0 + 2) % 3
    ∧ APIKeyManager.isExhausted
        (APIKeyManager.mark_quota_exceeded ⟨2, 0, []⟩ 5 3).1.exhaustedKeys 0 = true :=
  ⟨(C6_mark_quota_exceeded_rotation.2.1 [] 5 3 (by norm_num)).1,
   (C6_mark_quota_exceeded_rotation.2.1 [] 5 3 (by norm_num)).2,
   (C6_mark_quota_exceeded_rotation.2.2 0 5 3 7 3 (by norm_num) (by norm_num)
      (by norm_num) (by norm_num)).2.1,
   (C6_mark_quota_exceeded_rotation.2.2 0 5 3 7 3 (by norm_num) (by norm_num)
      (by norm_num) (by norm_num)).2.2.2,
   (C6_mark_quota_exceeded_rotation.1 ⟨2, 0, []⟩ 5 3 (by norm_num)).1⟩

/-- C2 counterexample: with three credential sets and a quota-exceeded 403
on every attempt, the operation is attempted three times — two retries —
before failure is surfaced, so it is not retried only "exactly once" before
surfacing failure. -/
theorem C2_counterexample :
    (YouTubeAPIService.upload_video ⟨3, 0, []⟩ 1 0 true
        [YouTubeAPIService.quotaOutcome, YouTubeAPIService.quotaOutcome,
         YouTubeAPIService.quotaOutcome]).2.2 = 3
    ∧ (YouTubeAPIService.upload_video ⟨3, 0, []⟩ 1 0 true
        [YouTubeAPIService.quotaOutcome, YouTubeAPIService.quotaOutcome,
         YouTubeAPIService.quotaOutcome]).2.1 = false := by
  decide

/-- C2 amended: a quota-exceeded 403 whose key switch and re-authentication
succeed triggers a recursive retry of the same operation (so one retry per
successful switch, possibly several before failure surfaces); a quota error
whose switch fails, and every other error class, is surfaced immediately
with no retry at this layer; attempts never exceed the available network
outcomes. -/
theorem C2_quota_rotation_retry :
    (∀ (m : APIKeyManager.State) (now lr : ℕ) (authOk : Bool) (st : ℕ)
        (content : String) (rest : List YouTubeAPIService.ApiOutcome),
        ¬(st = 403 ∧ containsSub content.toList ("quotaExceeded".toList) = true) →
        YouTubeAPIService.upload_video m now lr authOk
            (.httpError st content :: rest) = (m, false, 1))
    ∧ (∀ (m : APIKeyManager.State) (now lr : ℕ) (authOk : Bool)
        (rest : List YouTubeAPIService.ApiOutcome),
        YouTubeAPIService.upload_video m now lr authOk (.otherError :: rest)
          = (m, false, 1))
    ∧ (∀ (m : APIKeyManager.State) (now lr : ℕ) (authOk : Bool)
        (rest : List YouTubeAPIService.ApiOutcome),
        YouTubeAPIService.upload_video m now lr authOk (.success :: rest)
          = (m, true, 1))
    ∧ (∀ (m : APIKeyManager.State) (now lr : ℕ) (authOk : Bool) (st : ℕ)
        (content : String) (rest : List YouTubeAPIService.ApiOutcome),
        (YouTubeAPIService.handle_quota_error m st content now lr authOk).2 = true →
        (YouTubeAPIService.upload_video m now lr authOk
            (.httpError st content :: rest)).2.2
          = (YouTubeAPIService.upload_video
              (YouTubeAPIService.handle_quota_error m st content now lr authOk).1
              now lr authOk rest).2.2 + 1
        ∧ (YouTubeAPIService.upload_video m now lr authOk
            (.httpError st content :: rest)).2.1
          = (YouTubeAPIService.upload_video
              (YouTubeAPIService.handle_quota_error m st content now lr authOk).1
              now lr authOk rest).2.1)
    ∧ (∀ (m : APIKeyManager.State) (now lr : ℕ) (authOk : Bool) (st : ℕ)
        (content : String) (rest : List YouTubeAPIService.ApiOutcome),
        (YouTubeAPIService.handle_quota_error m st content now lr authOk).2 = false →
        YouTubeAPIService.upload_video m now lr authOk
            (.httpError st content :: rest)
          = ((YouTubeAPIService.handle_quota_error m st content now lr authOk).1,
             false, 1))
    ∧ (∀ (m : APIKeyManager.State) (now lr : ℕ) (authOk : Bool)
        (outs : List YouTubeAPIService.ApiOutcome),
        (YouTubeAPIService.upload_video m now lr authOk outs).2.2 ≤ outs.length) := by
  refine ⟨?_, ?_, ?_, ?_, ?_, ?_⟩
  · intro m now lr authOk st content rest hns
    have hg : YouTubeAPIService.handle_quota_error m st content now lr authOk
        = (m, false) := by
      unfold YouTubeAPIService.handle_quota_error
      rw [if_neg]
      simp only [Bool.and_eq_true, beq_iff_eq, not_and]
      intro h1 h2
      exact hns ⟨h1, h2⟩
    simp [YouTubeAPIService.upload_video, hg]
  · intro m now lr authOk rest
    simp [YouTubeAPIService.upload_video]
  · intro m now lr authOk rest
    simp [YouTubeAPIService.upload_video]
  · intro m now lr authOk st content rest hsw
    simp [YouTubeAPIService.upload_video, hsw]
  · intro m now lr authOk st content rest hsw
    simp [YouTubeAPIService.upload_video, hsw]
  · intro m now lr authOk outs
    induction outs generalizing m with
    | nil => simp [YouTubeAPIService.upload_video]
    | cons o rest ih =>
      cases o with
      | success => simp [YouTubeAPIService.upload_video]
      | otherError => simp [YouTubeAPIService.upload_video]
      | httpError st content =>
        simp only [YouTubeAPIService.upload_video]
        by_cases hr : (YouTubeAPIService.handle_quota_error m st content now lr authOk).2
            = true
        · simp only [hr, if_true]
          have := ih (YouTubeAPIService.handle_quota_error m st content now lr authOk).1
          simpa using Nat.succ_le_succ this
        · simp only [Bool.not_eq_true] at hr
          simp [hr]

/-- Witness for C2 (amended): a non-quota HTTP 500 is surfaced with a
single attempt and no key rotation. -/
theorem C2_quota_rotation_retry_witness :
    YouTubeAPIService.upload_video ⟨3, 0, []⟩ 1 0 true
        [YouTubeAPIService.ApiOutcome.httpError 500 ("Internal Server Error")]
      = (⟨3, 0, []⟩, false, 1)
    ∧ (YouTubeAPIService.upload_video ⟨3, 0, []⟩ 1 0 true
        [YouTubeAPIService.ApiOutcome.otherError]).2.2 ≤ 1 :=
  ⟨C2_quota_rotation_retry.1 ⟨3, 0, []⟩ 1 0 true 500 ("Internal Server Error") []
     (by decide),
   C2_quota_rotation_retry.2.2.2.2.2 ⟨3, 0, []⟩ 1 0 true
     [YouTubeAPIService.ApiOutcome.otherError]⟩

theorem poolInv_init (n : ℕ) : WorkerManager.PoolInv n (WorkerManager.initState n) := by
  refine ⟨rfl, by simp [WorkerManager.initState], ?_⟩
  simp only [WorkerManager.initState]
  rw [if_neg (by omega)]

theorem poolInv_step (n : ℕ) (s : WorkerManager.PoolState) (e : WorkerManager.PoolEvent)
    (hinv : WorkerManager.PoolInv n s) (he : WorkerManager.enabled s e = true) :
    WorkerManager.PoolInv n (WorkerManager.step s e) := by
  obtain ⟨h1, h2, h3⟩ := hinv
  cases e <;>
    simp only [WorkerManager.PoolInv, WorkerManager.step, WorkerManager.enabled,
      decide_eq_true_eq] at he h3 ⊢ <;>
    split_ifs at h3 ⊢ <;>
    (try dsimp only at *) <;>
    refine ⟨by omega, by omega, by omega⟩

theorem poolInv_run (n : ℕ) (s : WorkerManager.PoolState) (es : List WorkerManager.PoolEvent)
    (hinv : WorkerManager.PoolInv n s) (hv : WorkerManager.validFrom s es = true) :
    WorkerManager.PoolInv n (WorkerManager.runPool s es) := by
  induction es generalizing s with
  | nil => exact hinv
  | cons e es ih =>
    rw [WorkerManager.validFrom, Bool.and_eq_true] at hv
    exact ih (WorkerManager.step s e) (poolInv_step n s e hinv hv.1) hv.2

/-- C1 counterexample: after zero `add_task` calls and `start_workers()` the
run is already complete (no submitted task lacks a terminal outcome and the
queue is empty), yet the `all_tasks_completed` signal has been emitted zero
times, not exactly once — the signal is only ever emitted inside a
completion/failure callback, which never runs. -/
theorem C1_counterexample :
    WorkerManager.validFrom (WorkerManager.initState 0) [] = true
    ∧ (WorkerManager.runPool (WorkerManager.initState 0) []).completed
        + (WorkerManager.runPool (WorkerManager.initState 0) []).failed
        = (WorkerManager.runPool (WorkerManager.initState 0) []).total
    ∧ (WorkerManager.runPool (WorkerManager.initState 0) []).queued = 0
    ∧ (WorkerManager.runPool (WorkerManager.initState 0) []).emitted = 0 := by
  decide

/-- C1 amended: for every sequence of `add_task` calls followed by
`start_workers` with at least one task, along every valid run the
`all_tasks_completed` signal is emitted at most once, it is emitted only at
a point where every submitted task has a terminal outcome
(completed + failed = total) and the queue is empty, and once every
submitted task is terminal it has been emitted exactly once; with zero
tasks it is never emitted. -/
theorem C1_all_completed_exactly_once :
    ∀ (n : ℕ) (es : List WorkerManager.PoolEvent),
      WorkerManager.validFrom (WorkerManager.initState n) es = true →
      (WorkerManager.runPool (WorkerManager.initState n) es).emitted ≤ 1
      ∧ ((WorkerManager.runPool (WorkerManager.initState n) es).emitted = 1 →
          (WorkerManager.runPool (WorkerManager.initState n) es).completed
            + (WorkerManager.runPool (WorkerManager.initState n) es).failed = n
          ∧ (WorkerManager.runPool (WorkerManager.initState n) es).queued = 0)
      ∧ (0 < n →
          (WorkerManager.runPool (WorkerManager.initState n) es).completed
            + (WorkerManager.runPool (WorkerManager.initState n) es).failed = n →
          (WorkerManager.runPool (WorkerManager.initState n) es).emitted = 1) := by
  intro n es hv
  obtain ⟨h1, h2, h3⟩ := poolInv_run n (WorkerManager.initState n) es (poolInv_init n) hv
  split_ifs at h3 with hc
  · exact ⟨by omega, fun _ => by omega, fun _ _ => h3⟩
  · refine ⟨by omega, fun h => absurd h (by omega), fun hn hterm => absurd ⟨hterm, hn⟩ hc⟩

/-- Witness for C1 (amended): one task, fetched then completed — the signal
fires exactly once. -/
theorem C1_witness :
    (WorkerManager.runPool (WorkerManager.initState 1)
        [WorkerManager.PoolEvent.fetch, WorkerManager.PoolEvent.complete]).emitted ≤ 1
    ∧ (WorkerManager.runPool (WorkerManager.initState 1)
        [WorkerManager.PoolEvent.fetch, WorkerManager.PoolEvent.complete]).emitted = 1 :=
  ⟨(C1_all_completed_exactly_once 1
      [WorkerManager.PoolEvent.fetch, WorkerManager.PoolEvent.complete] (by decide)).1,
   (C1_all_completed_exactly_once 1
      [WorkerManager.PoolEvent.fetch, WorkerManager.PoolEvent.complete] (by decide)).2.2
     (by decide) (by decide)⟩

/-- C9: from a non-running manager with configured worker count `c` in 1–5,
`start_workers()` spawns exactly `c` workers; while already running it
spawns none (no-op); and the `worker_count` setter clamps every integer
into [1,5]. -/
theorem C9_start_workers_count :
    (∀ (m : WorkerManager.MState) (c : ℕ), m.isRunning = false → m.workers = [] →
        m.workerCount = c → 1 ≤ c → c ≤ 5 →
        (WorkerManager.start_workers m none).workers.length = c
        ∧ (WorkerManager.start_workers m none).isRunning = true)
    ∧ (∀ m : WorkerManager.MState, m.isRunning = true →
        WorkerManager.start_workers m none = m)
    ∧ (∀ (m : WorkerManager.MState) (v : ℤ),
        1 ≤ (WorkerManager.set_worker_count m v).workerCount
        ∧ (WorkerManager.set_worker_count m v).workerCount ≤ 5) := by
  refine ⟨?_, ?_, ?_⟩
  · intro m c hrun hws hwc _ _
    simp [WorkerManager.start_workers, hrun, hws, hwc]
  · intro m hrun
    simp [WorkerManager.start_workers, hrun]
  · intro m v
    simp only [WorkerManager.set_worker_count]
    omega

/-- Witness for C9 at a fresh manager with 3 configured workers. -/
theorem C9_witness :
    ((WorkerManager.start_workers ⟨false, [], 3⟩ none).workers.length = 3
      ∧ (WorkerManager.start_workers ⟨false, [], 3⟩ none).isRunning = true)
    ∧ WorkerManager.start_workers ⟨true, [1], 2⟩ none = ⟨true, [1], 2⟩
    ∧ (1 ≤ (WorkerManager.set_worker_count ⟨false, [], 3⟩ 99).workerCount
      ∧ (WorkerManager.set_worker_count ⟨false, [], 3⟩ 99).workerCount ≤ 5) :=
  ⟨C9_start_workers_count.1 ⟨false, [], 3⟩ 3 rfl rfl rfl (by decide) (by decide),
   C9_start_workers_count.2.1 ⟨true, [1], 2⟩ rfl,
   C9_start_workers_count.2.2 ⟨false, [], 3⟩ 99⟩

theorem delaySlices_stopped (p k j : ℕ) (hk : 0 < k) :
    UploadWorker.delaySlices p k j true = false := by
  cases k with
  | zero => omega
  | succ k => simp [UploadWorker.delaySlices]

theorem delaySlices_pause_stop (p k i : ℕ) (hip : i ≤ p) (hlt : p + 1 < i + k) :
    UploadWorker.delaySlices p k i false = false := by
  induction k generalizing i with
  | zero => omega
  | succ k ih =>
    rw [UploadWorker.delaySlices, if_neg (by simp)]
    rcases Nat.eq_or_lt_of_le hip with heq | hlt2
    · subst heq
      rw [show (false || (i == i)) = true by simp]
      exact delaySlices_stopped i k (i + 1) (by omega)
    · rw [show (false || (i == p)) = false by simp [Nat.ne_of_lt hlt2]]
      exact ih (i + 1) (by omega) (by omega)

/-- C5 counterexample: with a 1-second delay (two half-second slices), a
pause during the final slice followed by a stop request while still paused
does not prevent the dispatch — the loop has no further head check, so the
network call is started anyway. -/
theorem C5_counterexample :
    1 < 1 * 2 ∧ UploadWorker.processTaskDispatches 1 1 = true := by
  decide

/-- C5 amended: if the worker is paused during any slice of the pre-task
delay except the final one and stop is requested while it is paused, the
network call is never started; a pause-and-stop in the final slice still
dispatches. -/
theorem C5_stop_during_pause (delay pauseSlice : ℕ)
    (h : pauseSlice + 1 < delay * 2) :
    UploadWorker.processTaskDispatches delay pauseSlice = false :=
  delaySlices_pause_stop pauseSlice (delay * 2) 0 (Nat.zero_le _) (by omega)

/-- Witness for C5 (amended): pause and stop in slice 3 of a 5-second
delay (10 slices). -/
theorem C5_witness :
    3 + 1 < 5 * 2 ∧ UploadWorker.processTaskDispatches 5 3 = false :=
  ⟨by decide, C5_stop_during_pause 5 3 (by decide)⟩

/-- C4 counterexample: a persisted Video row with status "skipped" is not
in status "completed", yet `get_pending_tasks` does not return it — the
query only selects pending/uploading/failed — so it is not treated as
pending work by crash recovery. -/
theorem C4_counterexample :
    (StateManager.Database.mk [⟨1, "P1", "Name", none, none⟩]
        [⟨1, "e1.mp4", "/vids/e1.mp4", 1, "skipped", some 4, none⟩] []).videos.all
        (fun v => v.status != "completed") = true
    ∧ StateManager.get_pending_tasks
        (StateManager.Database.mk [⟨1, "P1", "Name", none, none⟩]
          [⟨1, "e1.mp4", "/vids/e1.mp4", 1, "skipped", some 4, none⟩] []) none = [] := by
  decide

/-- C4 amended: crash recovery treats a persisted Video row as pending work
iff its status is one of pending, uploading or failed (and its product row
exists); rows in any other status — "completed" but also "skipped" — are
excluded from `get_pending_tasks`. -/
theorem C4_pending_statuses :
    (∀ (db : StateManager.Database) (sid : Option String) (t : StateManager.TaskDict),
        t ∈ StateManager.get_pending_tasks db sid →
        t.status = "pending" ∨ t.status = "uploading" ∨ t.status = "failed")
    ∧ (∀ (db : StateManager.Database) (sid : Option String) (v : StateManager.VideoRow),
        v ∈ db.videos →
        (v.status = "pending" ∨ v.status = "uploading" ∨ v.status = "failed") →
        (∃ p, p ∈ db.products ∧ p.id = v.product_id) →
        ∃ t, t ∈ StateManager.get_pending_tasks db sid
          ∧ t.filename = v.filename ∧ t.file_path = v.file_path
          ∧ t.episode = v.episode ∧ t.status = v.status
          ∧ t.retry_count = v.retry_count.getD 0) := by
  constructor
  · intro db sid t ht
    rw [StateManager.get_pending_tasks, List.mem_filterMap] at ht
    obtain ⟨v, hv, hmap⟩ := ht
    rw [List.mem_filter] at hv
    rw [Option.map_eq_some'] at hmap
    obtain ⟨p, hfind, hrow⟩ := hmap
    have hps := hv.2
    subst hrow
    have hps2 : (v.status = "pending" ∨ v.status = "uploading") ∨ v.status = "failed" := by
      simpa [StateManager.pendingStatus] using hps
    simp only [StateManager.rowToDict]
    tauto
  · intro db sid v hv hst hp
    obtain ⟨p, hpmem, hpid⟩ := hp
    have hfind : (db.products.find? (fun p => p.id == v.product_id)).isSome := by
      rw [List.find?_isSome]
      exact ⟨p, hpmem, by simp [hpid]⟩
    obtain ⟨q, hq⟩ := Option.isSome_iff_exists.mp hfind
    refine ⟨StateManager.rowToDict q v, ?_, rfl, rfl, rfl, rfl, rfl⟩
    rw [StateManager.get_pending_tasks, List.mem_filterMap]
    refine ⟨v, List.mem_filter.mpr ⟨hv, ?_⟩, by rw [hq]; rfl⟩
    rcases hst with h | h | h <;> simp [StateManager.pendingStatus, h]

/-- Witness for C4 (amended): a failed row with an existing product is
recovered as pending work. -/
theorem C4_witness :
    ∃ t, t ∈ StateManager.get_pending_tasks
        (StateManager.Database.mk [⟨1, "P1", "Name", none, none⟩]
          [⟨1, "e2.mp4", "/vids/e2.mp4", 2, "failed", some 3, none⟩] []) none
      ∧ t.filename = "e2.mp4" ∧ t.file_path = "/vids/e2.mp4"
      ∧ t.episode = 2 ∧ t.status = "failed"
      ∧ t.retry_count = (some 3 : Option ℕ).getD 0 :=
  C4_pending_statuses.2
    (StateManager.Database.mk [⟨1, "P1", "Name", none, none⟩]
      [⟨1, "e2.mp4", "/vids/e2.mp4", 2, "failed", some 3, none⟩] []) none
    ⟨1, "e2.mp4", "/vids/e2.mp4", 2, "failed", some 3, none⟩
    (by simp) (Or.inr (Or.inr rfl)) ⟨⟨1, "P1", "Name", none, none⟩, by simp, rfl⟩

/-- C10: `get_pending_tasks` is independent of its `session_id` argument
and of the sessions table entirely — it selects every pending, uploading
or failed Video across all sessions — so crash recovery can adopt
non-completed videos persisted under sessions other than the resumable
one; demonstrated on a store whose only pending video is returned for two
different session ids. -/
theorem C10_get_pending_tasks_session_independent :
    (∀ (db : StateManager.Database) (sid1 sid2 : Option String),
        StateManager.get_pending_tasks db sid1 = StateManager.get_pending_tasks db sid2)
    ∧ (∀ (db : StateManager.Database) (sid : Option String)
        (otherSessions : List StateManager.SessionRow),
        StateManager.get_pending_tasks
            (StateManager.Database.mk db.products db.videos otherSessions) sid
          = StateManager.get_pending_tasks db sid)
    ∧ StateManager.get_pending_tasks
        (StateManager.Database.mk [⟨1, "P1", "Name", none, none⟩]
          [⟨1, "e1.mp4", "/vids/e1.mp4", 1, "pending", some 0, none⟩]
          [⟨"sessA", "completed", 1⟩, ⟨"sessB", "running", 2⟩]) (some ("sessB"))
        = StateManager.get_pending_tasks
            (StateManager.Database.mk [⟨1, "P1", "Name", none, none⟩]
              [⟨1, "e1.mp4", "/vids/e1.mp4", 1, "pending", some 0, none⟩]
              [⟨"sessA", "completed", 1⟩, ⟨"sessB", "running", 2⟩]) (some ("sessA"))
      ∧ (StateManager.get_pending_tasks
          (StateManager.Database.mk [⟨1, "P1", "Name", none, none⟩]
            [⟨1, "e1.mp4", "/vids/e1.mp4", 1, "pending", some 0, none⟩]
            [⟨"sessA", "completed", 1⟩, ⟨"sessB", "running", 2⟩]) (some ("sessB"))).length
          = 1 :=
  ⟨fun _ _ _ => rfl, fun _ _ _ => rfl, rfl, by decide⟩

/-- C3: with exactly 3 Video rows in statuses completed/failed/pending
persisted alongside one session in a non-terminal status,
`resume_from_crash` returns true, adopts that session id, rebuilds exactly
the 2 non-completed rows as tasks with status "pending" and the stored
retry counts preserved, and leaves the running flag untouched. -/
theorem C3_resume_from_crash_scenario :
    ∀ (p : StateManager.ProductRow) (v1 v2 v3 : StateManager.VideoRow)
      (s : StateManager.SessionRow) (o : Orchestrator.OState)
      (freshIds : ℕ → String) (r2 r3 : ℕ),
      (s.status = "pending" ∨ s.status = "running" ∨ s.status = "paused") →
      v1.status = "completed" → v2.status = "failed" → v3.status = "pending" →
      v1.product_id = p.id → v2.product_id = p.id → v3.product_id = p.id →
      v2.retry_count = some r2 → v3.retry_count = some r3 →
      o.is_running = false →
      (Orchestrator.resume_from_crash (StateManager.Database.mk [p] [v1, v2, v3] [s])
          o freshIds).2 = true
      ∧ (Orchestrator.resume_from_crash (StateManager.Database.mk [p] [v1, v2, v3] [s])
          o freshIds).1.session_id = some s.session_id
      ∧ (Orchestrator.resume_from_crash (StateManager.Database.mk [p] [v1, v2, v3] [s])
          o freshIds).1.tasks.length = 2
      ∧ ((Orchestrator.resume_from_crash (StateManager.Database.mk [p] [v1, v2, v3] [s])
          o freshIds).1.tasks.map Orchestrator.VideoTask.status) = ["pending", "pending"]
      ∧ ((Orchestrator.resume_from_crash (StateManager.Database.mk [p] [v1, v2, v3] [s])
          o freshIds).1.tasks.map Orchestrator.VideoTask.retry_count) = [r2, r3]
      ∧ ((Orchestrator.resume_from_crash (StateManager.Database.mk [p] [v1, v2, v3] [s])
          o freshIds).1.tasks.map Orchestrator.VideoTask.filename)
          = [v2.filename, v3.filename]
      ∧ (Orchestrator.resume_from_crash (StateManager.Database.mk [p] [v1, v2, v3] [s])
          o freshIds).1.is_running = false := by
  intro p v1 v2 v3 s o freshIds r2 r3 hs hv1 hv2 hv3 hp1 hp2 hp3 hr2 hr3 ho
  rcases hs with hs | hs | hs <;>
    simp [Orchestrator.resume_from_crash, StateManager.get_resumable_session,
      StateManager.latestSession, StateManager.resumableStatus,
      StateManager.get_pending_tasks, StateManager.pendingStatus,
      StateManager.rowToDict, Orchestrator.rebuildTask,
      List.filter, List.find?, List.filterMap, List.enum, List.enumFrom,
      hs, hv1, hv2, hv3, hp1, hp2, hp3, hr2, hr3, ho]

/-- Witness for C3 at a concrete store. -/
theorem C3_witness :
    (Orchestrator.resume_from_crash
        (StateManager.Database.mk [⟨1, "P1", "Name", some ("sd"), some ("ld")⟩]
          [⟨1, "a.mp4", "/v/a.mp4", 1, "completed", some 0, none⟩,
           ⟨1, "b.mp4", "/v/b.mp4", 2, "failed", some 2, none⟩,
           ⟨1, "c.mp4", "/v/c.mp4", 3, "pending", some 0, none⟩]
          [⟨"sess-1", "running", 10⟩])
        ⟨none, [], false, false⟩ (fun k => "task" ++ toString k)).2 = true
    ∧ (Orchestrator.resume_from_crash
        (StateManager.Database.mk [⟨1, "P1", "Name", some ("sd"), some ("ld")⟩]
          [⟨1, "a.mp4", "/v/a.mp4", 1, "completed", some 0, none⟩,
           ⟨1, "b.mp4", "/v/b.mp4", 2, "failed", some 2, none⟩,
           ⟨1, "c.mp4", "/v/c.mp4", 3, "pending", some 0, none⟩]
          [⟨"sess-1", "running", 10⟩])
        ⟨none, [], false, false⟩ (fun k => "task" ++ toString k)).1.tasks.map
        Orchestrator.VideoTask.retry_count = [2, 0]
    ∧ (Orchestrator.resume_from_crash
        (StateManager.Database.mk [⟨1, "P1", "Name", some ("sd"), some ("ld")⟩]
          [⟨1, "a.mp4", "/v/a.mp4", 1, "completed", some 0, none⟩,
           ⟨1, "b.mp4", "/v/b.mp4", 2, "failed", some 2, none⟩,
           ⟨1, "c.mp4", "/v/c.mp4", 3, "pending", some 0, none⟩]
          [⟨"sess-1", "running", 10⟩])
        ⟨none, [], false, false⟩ (fun k => "task" ++ toString k)).1.is_running = false :=
  ⟨(C3_resume_from_crash_scenario ⟨1, "P1", "Name", some ("sd"), some ("ld")⟩
      ⟨1, "a.mp4", "/v/a.mp4", 1, "completed", some 0, none⟩
      ⟨1, "b.mp4", "/v/b.mp4", 2, "failed", some 2, none⟩
      ⟨1, "c.mp4", "/v/c.mp4", 3, "pending", some 0, none⟩
      ⟨"sess-1", "running", 10⟩ ⟨none, [], false, false⟩
      (fun k => "task" ++ toString k) 2 0
      (Or.inr (Or.inl rfl)) rfl rfl rfl rfl rfl rfl rfl rfl rfl).1,
   (C3_resume_from_crash_scenario ⟨1, "P1", "Name", some ("sd"), some ("ld")⟩
      ⟨1, "a.mp4", "/v/a.mp4", 1, "completed", some 0, none⟩
      ⟨1, "b.mp4", "/v/b.mp4", 2, "failed", some 2, none⟩
      ⟨1, "c.mp4", "/v/c.mp4", 3, "pending", some 0, none⟩
      ⟨"sess-1", "running", 10⟩ ⟨none, [], false, false⟩
      (fun k => "task" ++ toString k) 2 0
      (Or.inr (Or.inl rfl)) rfl rfl rfl rfl rfl rfl rfl rfl rfl).2.2.2.2.1,
   (C3_resume_from_crash_scenario ⟨1, "P1", "Name", some ("sd"), some ("ld")⟩
      ⟨1, "a.mp4", "/v/a.mp4", 1, "completed", some 0, none⟩
      ⟨1, "b.mp4", "/v/b.mp4", 2, "failed", some 2, none⟩
      ⟨1, "c.mp4", "/v/c.mp4", 3, "pending", some 0, none⟩
      ⟨"sess-1", "running", 10⟩ ⟨none, [], false, false⟩
      (fun k => "task" ++ toString k) 2 0
      (Or.inr (Or.inl rfl)) rfl rfl rfl rfl rfl rfl rfl rfl rfl).2.2.2.2.2.2⟩
